import Mathlib

/-!
Verification development for the thesis figure scripts
(`pipeline_data_size.py`, `cosmological_horizon.py`,
`cosmological_parameters.py`).

Numeric code is embedded over `ℚ`: every arithmetic step the scripts
perform on IEEE doubles that matters to the claims below (comparisons
with 1024, division by the power of two 1024, formatting of values that
are exact in binary) is exact in double precision, so the rational
model computes the same results on the inputs the claims quantify over.
-/

/-! ## pipeline_data_size.py : convert_bytes (lines 39-60) -/

/-- Unit labels iterated by the loop of `convert_bytes`
(pipeline_data_size.py line 57). -/
def unitNames : List String := ["bytes", "KB", "MB", "GB", "TB", "PB"]

/-- Round a rational to the nearest integer, ties to even.  This is the
rounding used by Python float formatting with a fixed number of
decimals. -/
def roundHalfEven (q : ℚ) : ℤ :=
  let f : ℤ := ⌊q⌋
  if q - f < 1 / 2 then f
  else if (1 : ℚ) / 2 < q - f then f + 1
  else if f % 2 = 0 then f else f + 1

/-- Model of the Python format specifier `3.1f` applied to `num`
(pipeline_data_size.py line 59): one digit after the decimal point,
minimum field width 3.  The width-3 padding never inserts spaces,
because the shortest possible rendering `d.d` already has 3 characters,
so it is omitted here. -/
def formatFixed1 (q : ℚ) : String :=
  let n : ℤ := roundHalfEven (|q| * 10)
  let m : ℕ := n.toNat
  let core : String := toString (m / 10) ++ "." ++ toString (m % 10)
  if q < 0 then "-" ++ core else core

/-- Loop body of `convert_bytes` (pipeline_data_size.py lines 57-60):
iterate over the unit list; return as soon as `num < 1024`, otherwise
divide `num` by 1024 and continue; falling off the end of the list
returns `none` (the Python function implicitly returns None there). -/
def convertLoop (unit_only : Bool) : ℚ → List String → Option String
  | _, [] => none
  | num, unit :: rest =>
    if num < 1024 then
      if unit_only then some unit
      else some (formatFixed1 num ++ " " ++ unit)
    else convertLoop unit_only (num / 1024) rest

/-- Model of `convert_bytes(num, unit_only)`
(pipeline_data_size.py lines 39-60). -/
def convert_bytes (num : ℚ) (unit_only : Bool) : Option String :=
  convertLoop unit_only num unitNames

/-- The same loop as `convertLoop`, but returning the pair
(unit index, residual value) instead of the formatted string: the
(unit, value) reading that `convert_bytes` renders. -/
def readingLoop : ℚ → ℕ → List String → Option (ℕ × ℚ)
  | _, _, [] => none
  | num, idx, _ :: rest =>
    if num < 1024 then some (idx, num)
    else readingLoop (num / 1024) (idx + 1) rest

/-- The (unit index, value) reading of a byte count under the
`convert_bytes` loop. -/
def byteReading (num : ℚ) : Option (ℕ × ℚ) := readingLoop num 0 unitNames

/-! ## pipeline_data_size.py : literal tables (lines 63-115) -/

/-- Color table (pipeline_data_size.py line 63):
`["#ef476f"] * 6 + ["#ffd166"] * 5 + ["#06d6a0"] * 2 + ["#A768FF"] * 2`. -/
def colors : List String :=
  List.replicate 6 "#ef476f" ++ List.replicate 5 "#ffd166" ++
  List.replicate 2 "#06d6a0" ++ List.replicate 2 "#A768FF"

/-- Label table (pipeline_data_size.py lines 66-89). -/
def label : List String :=
  [ "Panphasian descriptor\n+ cosmology",
    "Panphasia inputs",
    "Glass file",
    "Initial conditions",
    "Snapshots",
    "Halo catalogues",
    "Object selection",
    "Zoom mask",
    "Zoom initial conditions",
    "Snapshots DMO",
    "Halo catalogues DMO",
    "Sub-grid calibration",
    "Fiducial simulation",
    "Data products",
    "Plots & insights" ]

/-- Byte size table (pipeline_data_size.py lines 96-115), with the
arithmetic of each literal entry kept as written in the source. -/
def byte_size : List ℕ :=
  [ 69 + 6 * 4 + 7 * 16,
    44,
    2948 * 1024,
    4339072582 * 1024,
    285253668 * 1024,
    20303636 * 1024,
    30 * 4,
    6604 * 1024,
    747403724 * 1024,
    573958792 * 1024,
    154754024 * 1024,
    (27711872475 + 24796451415 + 19728229448) * 1024 + 9 * 1024 ^ 4,
    45859195689 * 1024,
    437 * 1024,
    47 * 1024 ]

/-- Sequential process numbering `np.arange(len(byte_size))`
(pipeline_data_size.py line 92), taking `byte_size` as the literal
table the loop later iterates over. -/
def process_id : List ℕ := List.range byte_size.length

/-- The running values taken by `x_cumsum` in the loop
`x_cumsum = 0; for ...: x_cumsum += x`
(pipeline_data_size.py lines 131-134): element `i` is the value of
`x_cumsum` during iteration `i`. -/
def loopCumsum : ℕ → List ℕ → List ℕ
  | _, [] => []
  | acc, x :: rest => (acc + x) :: loopCumsum (acc + x) rest

/-- Trace of `x_cumsum` over the literal `byte_size` table. -/
def x_cumsum_trace : List ℕ := loopCumsum 0 byte_size

/-! ## cosmological_horizon.py : mode (lines 48-56) and get_aspect (lines 22-45) -/

/-- Value of `np.pi` (the double 3.141592653589793), as an exact
rational. -/
def np_pi : ℚ := 3.141592653589793

/-- Value of `scipy.constants.parsec` (the double 3.0856775814913673e16),
as an exact rational. -/
def const_parsec : ℚ := 30856775814913673

/-- The conversion factor `const.parsec * 1e6`
(cosmological_horizon.py line 55). -/
def mode_conversion : ℚ := const_parsec * 1000000

/-- Model of `mode(wavelength_mpc)` (cosmological_horizon.py
lines 48-56): `4 * np.pi / (wavelength_mpc * mode_conversion)`. -/
def mode (wavelength_mpc : ℚ) : ℚ :=
  4 * np_pi / (wavelength_mpc * mode_conversion)

/-- Axis scale kinds distinguished by `get_aspect` via
`ax.get_yscale() == 'log'` and `ax.get_xscale() == 'log'`. -/
inductive ScaleKind where
  | log
  | linear
deriving DecidableEq

/-- State of a matplotlib axes object, restricted to the attributes
`get_aspect` reads: figure size, axes position extent, data limits and
the two axis scales. -/
structure AxesState where
  figW : ℚ
  figH : ℚ
  w : ℚ
  h : ℚ
  xlim : ℚ × ℚ
  ylim : ℚ × ℚ
  xscale : ScaleKind
  yscale : ScaleKind

/-- Result of running a fragment of Python code: either a value, or an
uncaught NameError carrying the unresolved name. -/
inductive PyResult (α : Type) where
  | ok (val : α)
  | nameError (name : String)
deriving DecidableEq

/-- Model of `get_aspect(ax)` (cosmological_horizon.py lines 22-45).
The logarithm of the plotting library is passed in as `log10`.  The
`delta_y` line runs first: when the y-scale is not `log` its
conditional takes the branch `sub(*ax.get_ylim())`, and `sub` is an
undefined name, so a NameError is raised; the same happens on the
`delta_x` line for the x-scale.  Only with both scales logarithmic does
the function reach its final division. -/
def get_aspect (log10 : ℚ → ℚ) (ax : AxesState) : PyResult ℚ :=
  let disp_r : ℚ := (ax.figH * ax.h) / (ax.figW * ax.w)
  match ax.yscale with
  | .linear => .nameError "sub"
  | .log =>
    match ax.xscale with
    | .linear => .nameError "sub"
    | .log =>
      let delta_y : ℚ := log10 ax.ylim.2 - log10 ax.ylim.1
      let delta_x : ℚ := log10 ax.xlim.2 - log10 ax.xlim.1
      let data_r : ℚ := delta_y / delta_x
      .ok (disp_r / data_r)

/-- Concrete log-log axes used to instantiate the `get_aspect`
theorems: a 1 inch by 1 inch figure fully covered by the axes, with
x-limits (1, 10) and y-limits (1, 100). -/
def axSample : AxesState :=
  ⟨1, 1, 1, 1, (1, 10), (1, 100), ScaleKind.log, ScaleKind.log⟩

/-! ## cosmological_parameters.py : the astropy flat LambdaCDM cosmology

The script reads density parameters from
`astropy.cosmology.Planck18_arXiv_v2`, a `FlatLambdaCDM` instance.  The
relevant astropy semantics, embedded here: a flat cosmology has
curvature `Ok0 = 0` and closes the total density with
`Ode0 = 1 - Om0 - Ogamma0 - Onu0`; the neutrino density is tied to the
photon density by `Onu(z) = Ogamma(z) * nu_relative_density(z)` with
`Onu0 = Ogamma0 * nu_relative_density(0)`; each density parameter at
redshift `z` is its present value scaled by its density law and divided
by the squared normalized Hubble function `E2`. -/

/-- Flat LambdaCDM cosmology: present-day matter and photon densities,
and the neutrino density relative to photons as a function of redshift
(`nu_relative_density` in astropy; it varies with redshift when
neutrinos are massive). -/
structure FlatLambdaCDM where
  Om0 : ℚ
  Ogamma0 : ℚ
  nuRel : ℚ → ℚ

/-- Present-day neutrino density parameter:
`Onu0 = Ogamma0 * nu_relative_density(0)`. -/
def FlatLambdaCDM.Onu0 (c : FlatLambdaCDM) : ℚ := c.Ogamma0 * c.nuRel 0

/-- Curvature density of a flat cosmology: zero. -/
def FlatLambdaCDM.Ok0 (_ : FlatLambdaCDM) : ℚ := 0

/-- Dark energy density closing the total to one:
`Ode0 = 1 - Om0 - Ogamma0 - Onu0` (astropy `FlatFLRW`). -/
def FlatLambdaCDM.Ode0 (c : FlatLambdaCDM) : ℚ :=
  1 - c.Om0 - c.Ogamma0 - c.Onu0

/-- Squared normalized Hubble function
`E2(z) = Om0 (1+z)^3 + Ok0 (1+z)^2 + Ogamma0 (1 + nuRel z) (1+z)^4 + Ode0`. -/
def FlatLambdaCDM.E2 (c : FlatLambdaCDM) (z : ℚ) : ℚ :=
  c.Om0 * (1 + z) ^ 3 + c.Ok0 * (1 + z) ^ 2 +
  c.Ogamma0 * (1 + c.nuRel z) * (1 + z) ^ 4 + c.Ode0

/-- Matter density parameter at redshift `z`. -/
def FlatLambdaCDM.Om (c : FlatLambdaCDM) (z : ℚ) : ℚ :=
  c.Om0 * (1 + z) ^ 3 / c.E2 z

/-- Photon density parameter at redshift `z`. -/
def FlatLambdaCDM.Ogamma (c : FlatLambdaCDM) (z : ℚ) : ℚ :=
  c.Ogamma0 * (1 + z) ^ 4 / c.E2 z

/-- Curvature density parameter at redshift `z`. -/
def FlatLambdaCDM.Ok (c : FlatLambdaCDM) (z : ℚ) : ℚ :=
  c.Ok0 * (1 + z) ^ 2 / c.E2 z

/-- Dark energy density parameter at redshift `z`. -/
def FlatLambdaCDM.Ode (c : FlatLambdaCDM) (z : ℚ) : ℚ :=
  c.Ode0 / c.E2 z

/-- Neutrino density parameter at redshift `z`:
`Onu(z) = Ogamma(z) * nu_relative_density(z)`. -/
def FlatLambdaCDM.Onu (c : FlatLambdaCDM) (z : ℚ) : ℚ :=
  c.Ogamma z * c.nuRel z

/-- The hard-coded Planck 2018 cosmology `Planck18_arXiv_v2`
(H0 = 67.66, Om0 = 0.30966, Tcmb0 = 2.7255, Neff = 3.046, one massive
neutrino of 0.06 eV).  The photon density and the relative neutrino
density below are the values astropy derives from Tcmb0, H0 and the
neutrino masses, rounded to the shown decimals; the density-sum theorem
holds for every instance, independently of these derived values. -/
def Planck18_arXiv_v2 : FlatLambdaCDM :=
  ⟨0.30966, 0.000054020107, fun _ => 26.788⟩

/-! ## Script-level model

Each script is a flat sequence of top-level statements.  For the claims
about completion and failure paths, the decisive structure of every
statement is: its parse validity (Python compiles the whole file before
running any of it), the names it reads, the names it binds, and the
image files it writes.  Library calls themselves (plotting, cosmology
lookups) are treated as black boxes that succeed, matching the spec
treatment of external collaborators. -/

/-- Shape of a Python `try` statement: which of the optional clause
kinds are present.  The grammar accepts a `try` only with at least one
`except` clause, or with a `finally` clause (and an `else` clause only
after an `except`); `try ... else ...` alone does not compile. -/
structure TryShape where
  hasExcept : Bool
  hasFinally : Bool
  hasElse : Bool
deriving DecidableEq

/-- Whether a `try` statement of this shape is accepted by the Python
grammar. -/
def TryShape.parses (t : TryShape) : Bool :=
  t.hasExcept || (t.hasFinally && !t.hasElse)

/-- A statement inside a loop body: an assignment or a bare expression,
each carrying the global names it reads. -/
inductive SimpleStmt where
  | assign (targets : List String) (refs : List String)
  | expr (refs : List String)

/-- A top-level statement of one of the scripts.
`assign` covers assignments and `def`/import bindings; `expr` a bare
expression statement; `tryStyle` the stylesheet loading `try` block,
with its shape and the names read by body and handler; `unbalanced` a
statement whose source text contains an unmatched closing parenthesis
(it can never compile); `savefig` the final image write; `forLoop` a
`for` loop with the names read by its iterator expression, its loop
targets and its body. -/
inductive PStmt where
  | assign (targets : List String) (refs : List String)
  | expr (refs : List String)
  | tryStyle (shape : TryShape) (bodyRefs : List String) (handlerRefs : List String)
  | unbalanced (refs : List String)
  | savefig (file : String) (refs : List String)
  | forLoop (iterRefs : List String) (targets : List String) (body : List SimpleStmt)

/-- Whether a single top-level statement is accepted by the Python
parser. -/
def stmtParses : PStmt → Bool
  | .tryStyle shape _ _ => shape.parses
  | .unbalanced _ => false
  | _ => true

/-- First name of `refs` that is not bound in `env`, if any. -/
def unresolvedName (env : List String) (refs : List String) : Option String :=
  refs.find? (fun r => !env.contains r)

/-- Run one loop-body statement: resolve the names it reads, then bind
its targets. -/
def execSimple (env : List String) : SimpleStmt → Except String (List String)
  | .assign targets refs =>
    match unresolvedName env refs with
    | some n => .error n
    | none => .ok (targets ++ env)
  | .expr refs =>
    match unresolvedName env refs with
    | some n => .error n
    | none => .ok env

/-- Run a loop body in sequence. -/
def execSimples (env : List String) : List SimpleStmt → Except String (List String)
  | [] => .ok env
  | s :: rest =>
    match execSimple env s with
    | .error n => .error n
    | .ok env2 => execSimples env2 rest

/-- Run one top-level statement over the environment of bound names and
the list of files written so far.  The stylesheet `try` has a bare
`except`, which absorbs any exception from its body (including the
missing-file error), so only the handler names need to resolve.  A
`for` loop binds its targets and runs its body; the loops in these
scripts iterate over non-empty literal zips and their bodies only
rebind names, so one pass fixes the name-resolution outcome. -/
def execStmt (env : List String) (files : List String) :
    PStmt → Except String (List String × List String)
  | .assign targets refs =>
    match unresolvedName env refs with
    | some n => .error n
    | none => .ok (targets ++ env, files)
  | .expr refs =>
    match unresolvedName env refs with
    | some n => .error n
    | none => .ok (env, files)
  | .tryStyle _ _ handlerRefs =>
    match unresolvedName env handlerRefs with
    | some n => .error n
    | none => .ok (env, files)
  | .unbalanced _ => .ok (env, files)
  | .savefig file refs =>
    match unresolvedName env refs with
    | some n => .error n
    | none => .ok (env, files ++ [file])
  | .forLoop iterRefs targets body =>
    match unresolvedName env iterRefs with
    | some n => .error n
    | none =>
      match execSimples (targets ++ env) body with
      | .error n => .error n
      | .ok env2 => .ok (env2, files)

/-- Run the top-level statements in order. -/
def runStmts : List String → List String → List PStmt →
    Except String (List String × List String)
  | env, files, [] => .ok (env, files)
  | env, files, s :: rest =>
    match execStmt env files s with
    | .error n => .error n
    | .ok (env2, files2) => runStmts env2 files2 rest

/-- Outcome of executing a script: normal completion with the image
files it wrote, a parse failure (nothing runs, nothing is written), or
an uncaught NameError. -/
inductive ScriptOutcome where
  | completes (files : List String)
  | parseError
  | nameError (name : String)
deriving DecidableEq

/-- Execute a script: Python first compiles the whole file, so if any
statement fails to parse the script stops before running anything;
otherwise the statements run in order. -/
def runScript (imports : List String) (stmts : List PStmt) : ScriptOutcome :=
  if stmts.all stmtParses then
    match runStmts imports [] stmts with
    | .ok (_, files) => .completes files
    | .error n => .nameError n
  else .parseError

/-! ## Transcription of the three scripts as statement lists -/

/-- Shape of the stylesheet `try` in pipeline_data_size.py
(lines 29-33): a `try` with an `else` clause and no `except` and no
`finally`. -/
def pipelineStyleTry : TryShape := ⟨false, false, true⟩

/-- Shape of the stylesheet `try` in cosmological_horizon.py
(lines 60-64): a `try` with an `else` clause and no `except` and no
`finally`. -/
def horizonStyleTry : TryShape := ⟨false, false, true⟩

/-- Shape of the stylesheet `try` in cosmological_parameters.py
(lines 23-27): a `try` with a bare `except` clause. -/
def parametersStyleTry : TryShape := ⟨true, false, false⟩

/-- Names bound by the imports of pipeline_data_size.py (lines 22-26)
plus the builtins the script uses. -/
def pipelineImports : List String :=
  ["np", "interpolate", "plt", "transforms", "mpatches", "Line2D",
   "print", "dict", "range", "len", "zip"]

/-- Top-level statements of pipeline_data_size.py (lines 29-185) in
source order, parameterized by the shape of the stylesheet `try` so
that the committed shape and a repaired one can both be examined. -/
def pipelineStmts (styleTry : TryShape) : List PStmt :=
  [ .tryStyle styleTry ["plt"] ["print"],
    .assign ["palette_ref"] [],
    .assign ["convert_bytes"] [],
    .assign ["colors"] [],
    .assign ["label"] [],
    .assign ["byte_size"] ["np", "byte_size"],
    .assign ["process_id"] ["np", "len", "byte_size"],
    .assign ["byte_size"] [],
    .assign ["fig", "axes"] ["plt"],
    .expr ["axes"],
    .expr ["axes"],
    .expr ["axes", "process_id"],
    .expr ["axes", "range"],
    .expr ["axes"],
    .expr ["axes"],
    .assign ["bar_kwargs"] ["dict"],
    .assign ["x_cumsum"] [],
    .forLoop ["zip", "process_id", "byte_size", "colors", "label"]
      ["y", "x", "c", "l"]
      [ .assign ["x_cumsum"] ["x_cumsum", "x"],
        .expr ["axes", "x_cumsum", "y", "c"],
        .expr ["axes", "y", "c"],
        .expr ["axes", "x", "y", "c"],
        .expr ["axes", "x", "y", "c"],
        .expr ["axes", "y", "l"] ],
    .forLoop ["range"] ["i"]
      [ .expr ["axes", "i"],
        .expr ["axes", "i", "convert_bytes"] ],
    .expr ["axes"],
    .expr ["axes"],
    .expr ["axes"],
    .expr ["axes"],
    .assign ["handles"] ["Line2D"],
    .assign ["legend_frame"] ["axes", "handles"],
    .expr ["axes", "palette_ref"],
    .expr ["axes", "palette_ref"],
    .expr ["axes", "palette_ref"],
    .expr ["axes", "palette_ref"],
    .assign ["trans"] ["transforms", "axes"],
    .assign ["text_kwargs"] ["dict", "trans"],
    .expr ["axes", "text_kwargs"],
    .expr ["axes", "text_kwargs"],
    .expr ["axes", "text_kwargs"],
    .expr ["axes", "text_kwargs"],
    .savefig "pipeline_data_size.pdf" ["plt"] ]

/-- Names bound by the imports of cosmological_horizon.py
(lines 17-20) plus the builtins the script uses. -/
def horizonImports : List String :=
  ["np", "plt", "cosmology", "const",
   "print", "dict", "range", "len", "zip", "enumerate"]

/-- Top-level statements of cosmological_horizon.py (lines 22-159) in
source order, parameterized by the shape of the stylesheet `try`.  The
four annotate statements at lines 123-130, 132-139, 141-148 and
150-156 each end with `**text_kwargs))`, one closing parenthesis more
than were opened, and are transcribed as `unbalanced`. -/
def horizonStmts (styleTry : TryShape) : List PStmt :=
  [ .assign ["get_aspect"] [],
    .assign ["mode"] [],
    .tryStyle styleTry ["plt"] ["print"],
    .assign ["palette_ref"] [],
    .assign ["redshifts_p1"] ["np"],
    .assign ["scale_factors"] ["redshifts_p1"],
    .assign ["Hz_natural"] ["cosmology", "redshifts_p1", "const"],
    .assign ["fig", "ax"] ["plt"],
    .expr ["ax"],
    .expr ["ax", "scale_factors", "Hz_natural"],
    .forLoop ["enumerate", "zip"] ["i", "l", "txt"]
      [ .expr ["ax", "scale_factors", "mode", "l", "txt", "palette_ref", "i"],
        .assign ["x_cross_id"] ["np", "mode", "l", "scale_factors", "Hz_natural"],
        .assign ["x_cross"] ["scale_factors", "x_cross_id"],
        .assign ["y_cross"] ["mode", "l", "x_cross"],
        .expr ["ax", "x_cross", "y_cross", "palette_ref", "i"],
        .expr ["l", "plt", "x_cross", "y_cross", "dict"] ],
    .expr ["ax"],
    .expr ["ax"],
    .expr ["ax"],
    .expr ["ax"],
    .expr ["ax"],
    .expr ["ax"],
    .assign ["text_kwargs"] ["dict"],
    .assign ["arrow_kwargs"] ["dict"],
    .assign ["rotation_angle"] ["np", "get_aspect", "ax"],
    .expr ["plt", "mode", "rotation_angle", "dict", "arrow_kwargs", "text_kwargs"],
    .unbalanced ["plt", "mode", "rotation_angle", "text_kwargs"],
    .unbalanced ["plt", "mode", "rotation_angle", "text_kwargs"],
    .unbalanced ["plt", "dict", "arrow_kwargs", "text_kwargs"],
    .unbalanced ["plt", "dict", "arrow_kwargs", "text_kwargs"],
    .savefig "cosmological_horizon.pdf" ["plt"] ]

/-- Names bound by the imports of cosmological_parameters.py
(lines 17-20) plus the builtins the script uses. -/
def parametersImports : List String :=
  ["np", "plt", "transforms", "cosmology",
   "print", "dict", "range", "len", "zip"]

/-- Top-level statements of cosmological_parameters.py (lines 23-153)
in source order. -/
def parametersStmts : List PStmt :=
  [ .tryStyle parametersStyleTry ["plt"] ["print"],
    .assign ["palette_ref"] [],
    .assign ["palette_light"] [],
    .assign ["redshifts_p1"] ["np"],
    .assign ["scale_factors"] ["redshifts_p1"],
    .assign ["fig", "axes"] ["plt"],
    .assign ["ax"] ["axes"],
    .expr ["ax"],
    .expr ["ax", "redshifts_p1", "cosmology", "palette_light"],
    .expr ["ax", "redshifts_p1", "cosmology", "palette_ref"],
    .expr ["ax", "redshifts_p1", "cosmology", "palette_ref"],
    .expr ["ax", "redshifts_p1", "cosmology", "palette_ref"],
    .expr ["ax", "redshifts_p1", "cosmology", "palette_ref"],
    .expr ["ax", "redshifts_p1", "cosmology", "palette_ref"],
    .expr ["ax", "redshifts_p1", "cosmology", "palette_ref"],
    .expr ["ax", "redshifts_p1", "cosmology", "palette_light"],
    .expr ["ax", "cosmology", "palette_light"],
    .expr ["ax", "cosmology", "palette_light"],
    .expr ["ax", "cosmology", "palette_ref"],
    .expr ["ax", "cosmology", "palette_ref"],
    .expr ["ax", "cosmology", "palette_ref"],
    .expr ["ax", "cosmology", "palette_ref"],
    .expr ["ax", "cosmology", "palette_light"],
    .assign ["trans"] ["transforms", "ax"],
    .expr ["ax", "palette_ref", "trans"],
    .expr ["ax"],
    .expr ["ax"],
    .expr ["ax"],
    .expr ["ax"],
    .assign ["ax2"] ["ax"],
    .expr ["ax2"],
    .expr ["ax2"],
    .expr ["ax2"],
    .assign ["ax"] ["axes"],
    .expr ["ax"],
    .expr ["ax", "redshifts_p1", "cosmology", "palette_light"],
    .expr ["ax", "redshifts_p1", "cosmology", "np", "scale_factors", "palette_ref"],
    .expr ["ax", "redshifts_p1", "cosmology", "np", "scale_factors", "palette_ref"],
    .expr ["ax", "redshifts_p1", "cosmology", "np", "scale_factors", "palette_ref"],
    .expr ["ax", "redshifts_p1", "cosmology", "np", "scale_factors", "palette_ref"],
    .expr ["ax", "redshifts_p1", "cosmology", "np", "scale_factors", "palette_ref"],
    .expr ["ax", "redshifts_p1", "cosmology", "np", "scale_factors", "palette_ref"],
    .expr ["ax", "cosmology", "palette_light"],
    .expr ["ax", "cosmology"],
    .expr ["ax"],
    .expr ["ax"],
    .expr ["ax"],
    .expr ["ax"],
    .expr ["ax"],
    .assign ["matter_radiation_equality"] ["cosmology"],
    .expr ["ax", "matter_radiation_equality"],
    .expr ["axes", "matter_radiation_equality"],
    .assign ["matter_lambda_equality"] ["cosmology"],
    .expr ["ax", "matter_lambda_equality"],
    .expr ["axes", "matter_lambda_equality"],
    .expr ["ax", "matter_radiation_equality", "palette_ref"],
    .expr ["ax", "matter_radiation_equality", "matter_lambda_equality", "palette_ref"],
    .expr ["ax", "matter_lambda_equality", "palette_ref"],
    .assign ["trans"] ["transforms", "ax"],
    .assign ["eras_label_kwargs"] ["dict", "trans"],
    .expr ["ax", "eras_label_kwargs"],
    .expr ["ax", "eras_label_kwargs"],
    .expr ["ax", "eras_label_kwargs"],
    .expr ["ax", "matter_radiation_equality", "eras_label_kwargs"],
    .expr ["ax", "matter_lambda_equality", "eras_label_kwargs"],
    .savefig "cosmological_parameters.pdf" ["plt"] ]

/-! ## Supporting lemmas -/

/-- The unit index returned by the reading loop is at least the index
it started from. -/
theorem readingLoop_index_le : ∀ (L : List String) (num : ℚ) (idx : ℕ) (r : ℕ × ℚ),
    readingLoop num idx L = some r → idx ≤ r.1 := by
  intro L
  induction L with
  | nil => intro num idx r h; simp [readingLoop] at h
  | cons u rest ih =>
    intro num idx r h
    by_cases hn : num < 1024
    · simp only [readingLoop, if_pos hn, Option.some.injEq] at h
      cases h
      exact le_rfl
    · simp only [readingLoop, if_neg hn] at h
      exact le_trans (Nat.le_succ idx) (ih _ _ _ h)

/-- Monotonicity of the reading loop: a smaller input never yields a
lexicographically larger (unit index, value) reading. -/
theorem readingLoop_mono : ∀ (L : List String) (n1 n2 : ℚ) (idx : ℕ) (r1 r2 : ℕ × ℚ),
    n1 ≤ n2 → readingLoop n1 idx L = some r1 → readingLoop n2 idx L = some r2 →
    r1.1 < r2.1 ∨ (r1.1 = r2.1 ∧ r1.2 ≤ r2.2) := by
  intro L
  induction L with
  | nil => intro n1 n2 idx r1 r2 _ h1 _; simp [readingLoop] at h1
  | cons u rest ih =>
    intro n1 n2 idx r1 r2 h12 h1 h2
    by_cases h2lt : n2 < 1024
    · have h1lt : n1 < 1024 := lt_of_le_of_lt h12 h2lt
      simp only [readingLoop, if_pos h1lt, Option.some.injEq] at h1
      simp only [readingLoop, if_pos h2lt, Option.some.injEq] at h2
      cases h1
      cases h2
      exact Or.inr ⟨rfl, h12⟩
    · by_cases h1lt : n1 < 1024
      · simp only [readingLoop, if_pos h1lt, Option.some.injEq] at h1
        simp only [readingLoop, if_neg h2lt] at h2
        cases h1
        exact Or.inl (lt_of_lt_of_le (Nat.lt_succ_self idx)
          (readingLoop_index_le rest (n2 / 1024) (idx + 1) r2 h2))
      · simp only [readingLoop, if_neg h1lt] at h1
        simp only [readingLoop, if_neg h2lt] at h2
        have hdiv : n1 / 1024 ≤ n2 / 1024 :=
          (div_le_div_iff_of_pos_right (by norm_num : (0:ℚ) < 1024)).mpr h12
        exact ih _ _ _ _ _ hdiv h1 h2

/-- The conversion loop returns a value whenever the input is below
1024 to the power of the number of available units. -/
theorem convertLoop_isSome (uo : Bool) : ∀ (rest : List String) (u : String) (num : ℚ),
    num < 1024 ^ (rest.length + 1) → (convertLoop uo num (u :: rest)).isSome := by
  intro rest
  induction rest with
  | nil =>
    intro u num hnum
    rw [List.length_nil, Nat.zero_add, pow_one] at hnum
    simp only [convertLoop, if_pos hnum]
    cases uo <;> simp
  | cons v rest2 ih =>
    intro u num hnum
    by_cases hn : num < 1024
    · simp only [convertLoop, if_pos hn]
      cases uo <;> simp
    · have hrec : num / 1024 < 1024 ^ (rest2.length + 1) := by
        rw [div_lt_iff₀ (by norm_num : (0:ℚ) < 1024)]
        calc num < 1024 ^ (rest2.length + 1 + 1) := by
              simpa [List.length_cons] using hnum
          _ = 1024 ^ (rest2.length + 1) * 1024 := by rw [pow_succ]
      simp only [convertLoop, if_neg hn]
      exact ih v (num / 1024) hrec

/-- The conversion loop falls off the end of its unit list whenever the
input is at least 1024 to the power of the number of units. -/
theorem convertLoop_eq_none (uo : Bool) : ∀ (L : List String) (num : ℚ),
    (1024:ℚ) ^ L.length ≤ num → convertLoop uo num L = none := by
  intro L
  induction L with
  | nil => intro num _; rfl
  | cons u rest ih =>
    intro num hnum
    have h1 : (1024:ℚ) ≤ num := by
      calc (1024:ℚ) = 1024 ^ 1 := (pow_one _).symm
        _ ≤ 1024 ^ (u :: rest).length := by
            apply pow_le_pow_right₀ (by norm_num : (1:ℚ) ≤ 1024)
            simp [List.length_cons]
        _ ≤ num := hnum
    simp only [convertLoop, if_neg (not_lt.mpr h1)]
    apply ih
    rw [le_div_iff₀ (by norm_num : (0:ℚ) < 1024)]
    calc (1024:ℚ) ^ rest.length * 1024 = 1024 ^ (rest.length + 1) := (pow_succ _ _).symm
      _ = 1024 ^ (u :: rest).length := by rw [List.length_cons]
      _ ≤ num := hnum

/-- In any flat LambdaCDM cosmology of the embedded astropy semantics,
the five density parameters the script sums are exactly 1 at redshift
zero, because the dark energy density is defined as the closure value
and the squared normalized Hubble function is identically 1 there. -/
theorem flat_cosmology_density_sum (c : FlatLambdaCDM) :
    c.Om 0 + c.Ogamma 0 + c.Ok 0 + c.Ode 0 + c.Onu 0 = 1 := by
  have hE : c.E2 0 = 1 := by
    simp only [FlatLambdaCDM.E2, FlatLambdaCDM.Ok0, FlatLambdaCDM.Ode0, FlatLambdaCDM.Onu0]
    ring
  simp only [FlatLambdaCDM.Om, FlatLambdaCDM.Ogamma, FlatLambdaCDM.Ok, FlatLambdaCDM.Ode,
    FlatLambdaCDM.Onu, hE, div_one, FlatLambdaCDM.Ode0, FlatLambdaCDM.Ok0,
    FlatLambdaCDM.Onu0]
  ring

/-- Evaluation of the formatter at the value 1: the string "1.0". -/
theorem formatFixed1_one : formatFixed1 1 = "1.0" := by
  have habs : |(1:ℚ)| * 10 = 10 := by norm_num
  have hfloor : ⌊(10:ℚ)⌋ = 10 := by norm_num
  have hr : roundHalfEven (10:ℚ) = 10 := by
    unfold roundHalfEven
    rw [hfloor]
    norm_num
  simp only [formatFixed1, habs, hr]
  rw [if_neg (by norm_num : ¬ ((1:ℚ) < 0))]
  decide

/-- One-step unfolding of the conversion loop on a non-empty unit
list. -/
theorem convertLoop_cons (uo : Bool) (num : ℚ) (u : String) (rest : List String) :
    convertLoop uo num (u :: rest) =
      if num < 1024 then (if uo then some u else some (formatFixed1 num ++ " " ++ u))
      else convertLoop uo (num / 1024) rest := rfl

/-- Evaluation of the conversion loop at an exact power of 1024 within
range: the reading is exactly 1.0 in the unit at the matching index. -/
theorem convertLoop_pow : ∀ (k : ℕ) (L : List String) (u : String), k ≤ L.length →
    convertLoop false ((1024:ℚ) ^ k) (u :: L) = some ("1.0 " ++ (u :: L).getD k "") := by
  intro k
  induction k with
  | zero =>
    intro L u _
    rw [pow_zero, convertLoop_cons, if_pos (show (1:ℚ) < 1024 by norm_num),
      if_neg Bool.false_ne_true, formatFixed1_one]
    rfl
  | succ k ih =>
    intro L u hk
    cases L with
    | nil => simp at hk
    | cons v L2 =>
      have hge : ¬ ((1024:ℚ) ^ (k + 1) < 1024) := by
        push_neg
        exact le_self_pow₀ (by norm_num) (Nat.succ_ne_zero k)
      have hdiv : (1024:ℚ) ^ (k + 1) / 1024 = 1024 ^ k := by
        rw [pow_succ]
        exact mul_div_cancel_right₀ _ (by norm_num)
      rw [convertLoop_cons, if_neg hge, hdiv, ih L2 v (Nat.succ_le_succ_iff.mp hk)]
      rfl

/-! ## Claim theorems -/

/-- Claim C1.  The claim states that each of the three scripts runs to
completion and writes exactly one image file.  On the committed code
this fails: pipeline_data_size.py and cosmological_horizon.py do not
even compile (their stylesheet `try` has an `else` clause and no
`except`, and the horizon script additionally has four annotate calls
with an unmatched closing parenthesis), so they stop before writing
anything; only cosmological_parameters.py completes, writing exactly
its one fixed image file. -/
theorem scripts_run_outcomes :
    runScript pipelineImports (pipelineStmts pipelineStyleTry) = ScriptOutcome.parseError ∧
    runScript horizonImports (horizonStmts horizonStyleTry) = ScriptOutcome.parseError ∧
    runScript parametersImports parametersStmts =
      ScriptOutcome.completes ["cosmological_parameters.pdf"] := by
  refine ⟨?_, ?_, ?_⟩ <;> decide

/-- Claim C2.  The claim states that the only failure path in every
script is the optional stylesheet load, handled by printing a notice
and continuing.  On the committed code this holds only for
cosmological_parameters.py, whose `try` has a bare `except`.  In the
other two scripts the `try` has an `else` clause and no `except`, which
the Python grammar rejects, so the fallback can never execute; and even
with that `try` repaired, pipeline_data_size.py stops with a NameError
(`byte_size` is read on line 91 before its literal definition on
line 96) and cosmological_horizon.py still fails to compile at its
unbalanced annotate calls. -/
theorem stylesheet_try_failure_paths :
    TryShape.parses pipelineStyleTry = false ∧
    TryShape.parses horizonStyleTry = false ∧
    TryShape.parses parametersStyleTry = true ∧
    runScript pipelineImports (pipelineStmts ⟨true, false, false⟩) =
      ScriptOutcome.nameError "byte_size" ∧
    runScript horizonImports (horizonStmts ⟨true, false, false⟩) =
      ScriptOutcome.parseError := by
  refine ⟨?_, ?_, ?_, ?_, ?_⟩ <;> decide

/-- Claim C3, counterexample.  The claim states that convert_bytes
returns a string for every non-negative input.  At the non-negative
input 1024^6 the loop exhausts its six units and the function returns
None, for either value of unit_only. -/
theorem convert_bytes_none_large_input :
    (0:ℚ) ≤ 1024 ^ 6 ∧ convert_bytes ((1024:ℚ) ^ 6) false = none ∧
    convert_bytes ((1024:ℚ) ^ 6) true = none := by
  refine ⟨by norm_num, ?_, ?_⟩ <;>
    exact convertLoop_eq_none _ unitNames _ (by norm_num [unitNames])

/-- Claim C3, amended.  convert_bytes returns a string for every
non-negative input below 1024^6 (either value of unit_only); for every
input at least 1024^6 the loop falls off the end of the unit list and
the function returns None. -/
theorem convert_bytes_total_bounded :
    (∀ (num : ℚ) (uo : Bool), 0 ≤ num → num < 1024 ^ 6 →
      ∃ s, convert_bytes num uo = some s) ∧
    (∀ (num : ℚ) (uo : Bool), (1024:ℚ) ^ 6 ≤ num → convert_bytes num uo = none) := by
  constructor
  · intro num uo _ h6
    have h := convertLoop_isSome uo ["KB", "MB", "GB", "TB", "PB"] "bytes" num
      (by simpa using h6)
    exact Option.isSome_iff_exists.mp h
  · intro num uo h6
    exact convertLoop_eq_none uo unitNames num (by simpa [unitNames] using h6)

/-- Claim C3, witness for the amended theorem at the concrete inputs 5
and 1024^6. -/
theorem convert_bytes_total_bounded_witness :
    (∃ s, convert_bytes 5 false = some s) ∧ convert_bytes ((1024:ℚ) ^ 6) true = none :=
  ⟨convert_bytes_total_bounded.1 5 false (by norm_num) (by norm_num),
   convert_bytes_total_bounded.2 (1024 ^ 6) true (by norm_num)⟩

/-- Claim C4, counterexample.  The claim quantifies over every natural
k, but at k = 6 the unit sequence has no seventh label and
convert_bytes(1024^6) is None rather than a value-one reading. -/
theorem convert_bytes_no_unit_beyond_PB :
    ¬ ∃ u : String, unitNames[6]? = some u ∧
      convert_bytes ((1024:ℚ) ^ 6) false = some ("1.0 " ++ u) := by
  rintro ⟨u, hu, _⟩
  simp [unitNames] at hu

/-- Claim C4, amended.  For every k up to 5, convert_bytes(1024^k)
yields the string "1.0 " followed by the (k+1)-th unit label, and the
conversion is monotone wherever it is defined: whenever two inputs both
obtain a (unit index, value) reading, the smaller input never maps to a
lexicographically larger reading. -/
theorem convert_bytes_boundaries_and_monotone :
    (∀ k : ℕ, k ≤ 5 →
      convert_bytes ((1024:ℚ) ^ k) false = some ("1.0 " ++ unitNames.getD k "")) ∧
    (∀ (n1 n2 : ℚ) (r1 r2 : ℕ × ℚ), n1 ≤ n2 →
      byteReading n1 = some r1 → byteReading n2 = some r2 →
      r1.1 < r2.1 ∨ (r1.1 = r2.1 ∧ r1.2 ≤ r2.2)) := by
  constructor
  · intro k hk
    exact convertLoop_pow k ["KB", "MB", "GB", "TB", "PB"] "bytes" (by simpa using hk)
  · intro n1 n2 r1 r2 h12 h1 h2
    exact readingLoop_mono unitNames n1 n2 0 r1 r2 h12 h1 h2

/-- Claim C4, witness for the boundary part at k = 2 and for the
monotone part at the concrete inputs 5 (reading (0, 5), that is
5.0 bytes) and 2048 (reading (1, 2), that is 2.0 KB). -/
theorem convert_bytes_boundaries_and_monotone_witness :
    (convert_bytes ((1024:ℚ) ^ 2) false = some ("1.0 " ++ unitNames.getD 2 "")) ∧
    (((0:ℕ), (5:ℚ)).1 < ((1:ℕ), (2:ℚ)).1 ∨
     (((0:ℕ), (5:ℚ)).1 = ((1:ℕ), (2:ℚ)).1 ∧ ((0:ℕ), (5:ℚ)).2 ≤ ((1:ℕ), (2:ℚ)).2)) :=
  ⟨convert_bytes_boundaries_and_monotone.1 2 (by norm_num),
   convert_bytes_boundaries_and_monotone.2 5 2048 (0, 5) (1, 2) (by norm_num)
    (by norm_num [byteReading, readingLoop, unitNames])
    (by norm_num [byteReading, readingLoop, unitNames])⟩

/-- Claim C5.  The wavenumber formula mode is strictly decreasing in
the wavelength, and so is mode divided by any fixed positive scale
factor. -/
theorem mode_strict_anti (l1 l2 a : ℚ) (h1 : 0 < l1) (h12 : l1 < l2) (ha : 0 < a) :
    mode l2 < mode l1 ∧ mode l2 / a < mode l1 / a := by
  have hc : (0:ℚ) < mode_conversion := by norm_num [mode_conversion, const_parsec]
  have hnum : (0:ℚ) < 4 * np_pi := by norm_num [np_pi]
  have hmain : mode l2 < mode l1 := by
    unfold mode
    exact div_lt_div_of_pos_left hnum (mul_pos h1 hc) (mul_lt_mul_of_pos_right h12 hc)
  exact ⟨hmain, (div_lt_div_iff_of_pos_right ha).mpr hmain⟩

/-- Claim C5, witness at wavelengths 1 and 2 and scale factor 1. -/
theorem mode_strict_anti_witness :
    mode 2 < mode 1 ∧ mode 2 / 1 < mode 1 / 1 :=
  mode_strict_anti 1 2 1 (by norm_num) (by norm_num) (by norm_num)

/-- Claim C6.  The trace of x_cumsum over the literal byte_size table
is, step by step, the sum of the entries up to each index, and its
final value is the sum of all 15 entries. -/
theorem pipeline_cumsum_correct :
    x_cumsum_trace =
      (List.range byte_size.length).map (fun i => (byte_size.take (i + 1)).sum) ∧
    x_cumsum_trace.getLast? = some byte_size.sum ∧
    byte_size.length = 15 := by
  refine ⟨?_, ?_, ?_⟩ <;> decide

/-- Claim C7.  For the hard-coded Planck 2018 cosmology, the five
density parameters the script sums are exactly 1 at redshift zero
(scale factor 1), hence within any floating-point tolerance. -/
theorem planck18_density_sum_one :
    Planck18_arXiv_v2.Om 0 + Planck18_arXiv_v2.Ogamma 0 + Planck18_arXiv_v2.Ok 0 +
    Planck18_arXiv_v2.Ode 0 + Planck18_arXiv_v2.Onu 0 = 1 :=
  flat_cosmology_density_sum Planck18_arXiv_v2

/-- Claim C8.  The literal tables of pipeline_data_size.py are
length-consistent: colors, label and byte_size all have 15 entries,
the process numbering is 0 through 14, and the zip over all four drops
no entry. -/
theorem pipeline_tables_length_consistent :
    colors.length = 15 ∧ label.length = 15 ∧ byte_size.length = 15 ∧
    process_id = List.range 15 ∧
    (process_id.zip (byte_size.zip (colors.zip label))).length = 15 := by
  refine ⟨?_, ?_, ?_, ?_, ?_⟩ <;> decide

/-- Claim C9.  get_aspect is total exactly on log-log axes: with both
scales logarithmic the branch reading the undefined name `sub` is
unreachable and, for ordered positive limits on a non-degenerate
figure, the function returns a (finite, here positive) ratio; with a
linear x-scale or y-scale it raises a NameError for `sub`. -/
theorem get_aspect_loglog_total (f : ℚ → ℚ) (ax : AxesState)
    (hf : StrictMonoOn f (Set.Ioi 0))
    (hx0 : 0 < ax.xlim.1) (hx : ax.xlim.1 < ax.xlim.2)
    (hy0 : 0 < ax.ylim.1) (hy : ax.ylim.1 < ax.ylim.2)
    (hw : 0 < ax.figW * ax.w) (hh : 0 < ax.figH * ax.h) :
    (ax.xscale = ScaleKind.log ∧ ax.yscale = ScaleKind.log →
      ∃ r, get_aspect f ax = PyResult.ok r ∧ 0 < r) ∧
    ((ax.xscale = ScaleKind.linear ∨ ax.yscale = ScaleKind.linear) →
      get_aspect f ax = PyResult.nameError "sub") := by
  constructor
  · rintro ⟨hxs, hys⟩
    have hdy : 0 < f ax.ylim.2 - f ax.ylim.1 :=
      sub_pos.mpr (hf (Set.mem_Ioi.mpr hy0) (Set.mem_Ioi.mpr (lt_trans hy0 hy)) hy)
    have hdx : 0 < f ax.xlim.2 - f ax.xlim.1 :=
      sub_pos.mpr (hf (Set.mem_Ioi.mpr hx0) (Set.mem_Ioi.mpr (lt_trans hx0 hx)) hx)
    have hval : get_aspect f ax = PyResult.ok
        (((ax.figH * ax.h) / (ax.figW * ax.w)) /
          ((f ax.ylim.2 - f ax.ylim.1) / (f ax.xlim.2 - f ax.xlim.1))) := by
      simp only [get_aspect, hxs, hys]
    exact ⟨_, hval, div_pos (div_pos hh hw) (div_pos hdy hdx)⟩
  · intro h
    rcases h with hxl | hyl
    · cases hys : ax.yscale with
      | linear => simp only [get_aspect, hys]
      | log => simp only [get_aspect, hys, hxl]
    · simp only [get_aspect, hyl]

/-- Claim C9, witness on the concrete log-log axes axSample with the
identity standing in for the strictly monotone logarithm. -/
theorem get_aspect_loglog_total_witness :
    ∃ r, get_aspect (fun q => q) axSample = PyResult.ok r ∧ 0 < r :=
  (get_aspect_loglog_total (fun q => q) axSample (fun _ _ _ _ h => h)
    (by norm_num [axSample]) (by norm_num [axSample]) (by norm_num [axSample])
    (by norm_num [axSample]) (by norm_num [axSample]) (by norm_num [axSample])).1
    ⟨rfl, rfl⟩

/-- Claim C10.  convert_bytes does not enforce non-negativity: every
negative input is below 1024, so the loop returns on its first
iteration with the input formatted in the bytes unit, and with
unit_only set it returns the bare label. -/
theorem convert_bytes_negative (num : ℚ) (h : num < 0) :
    convert_bytes num false = some (formatFixed1 num ++ " bytes") ∧
    convert_bytes num true = some "bytes" := by
  have h1 : num < 1024 := lt_trans h (by norm_num)
  constructor <;> simp [convert_bytes, unitNames, convertLoop, h1, String.append_assoc]

/-- Claim C10, witness at the concrete input -5. -/
theorem convert_bytes_negative_witness :
    convert_bytes (-5) false = some (formatFixed1 (-5) ++ " bytes") ∧
    convert_bytes (-5) true = some "bytes" :=
  convert_bytes_negative (-5) (by norm_num)
